import Mathlib

set_option maxHeartbeats 1000000

namespace Mapnik

/-- Go float64 values as they flow through this adapter, modelled exactly.
The adapter only ever compares a scale factor against 0.0 and passes values
through unchanged, so an exact field suffices for its behaviour. -/
abbrev Float64 := Rat

/-- An opaque foreign map-context pointer; none models a null pointer. -/
abbrev MapPtr := Option Nat

/-- An opaque foreign projection-context pointer; none models a null pointer. -/
abbrev ProjPtr := Option Nat

/-- An opaque foreign image handle returned by mapnik_map_render_to_image. -/
abbrev ImagePtr := Nat

/-- Point in 2D space, mirroring the Coord struct of mapnik.go. -/
structure Coord where
  X : Float64
  Y : Float64
  deriving DecidableEq, Repr

/-- Projection from one reference system to the other: wraps one foreign handle. -/
structure Projection where
  p : ProjPtr
  deriving DecidableEq, Repr

/-- Map base type: wraps one foreign rendering-context handle. -/
structure Map where
  m : MapPtr
  deriving DecidableEq, Repr

/-- RenderOpts of mapnik.go: rendering options passed to the render entry points. -/
structure RenderOpts where
  Scale : Float64
  ScaleFactor : Float64
  Format : String
  deriving DecidableEq, Repr

/-- One call across the foreign-function boundary, with the arguments the
adapter marshals to it.  The errSlot argument of the registration calls is the
initial content of the allocated error-output buffer (the Go code initialises
it with a second copy of the path). -/
inductive FFICall where
  | register_datasources (path errSlot : String)
  | register_fonts (path errSlot : String)
  | map_create (width height : Nat)
  | map_load (h : MapPtr) (stylesheetFile : String)
  | map_load_string (h : MapPtr) (stylesheet : String)
  | map_zoom_all (h : MapPtr)
  | map_last_error (h : MapPtr)
  | map_render_to_file (h : MapPtr) (path : String) (scale scaleFactor : Float64)
      (format : String)
  | map_render_to_image (h : MapPtr) (scale scaleFactor : Float64)
  | image_to_png_blob (i : ImagePtr)
  | map_free (h : MapPtr)
  | projection_free (h : ProjPtr)
  | projection_forward (h : ProjPtr) (c : Coord)
  | map_projection (h : MapPtr)
  deriving DecidableEq, Repr

/-- The foreign engine, abstracted as one response function per C entry point
the adapter calls.  Status codes are C ints; the registration entry points
report their failure by writing a string into the callers error slot, modelled
as an optional returned string that the adapter may or may not read. -/
structure Engine where
  mapnik_map : Nat → Nat → MapPtr
  mapnik_map_load : MapPtr → String → Int
  mapnik_map_load_string : MapPtr → String → Int
  mapnik_map_zoom_all : MapPtr → Int
  mapnik_map_last_error : MapPtr → String
  mapnik_map_render_to_file : MapPtr → String → Float64 → Float64 → String → Int
  mapnik_map_render_to_image : MapPtr → Float64 → Float64 → Option ImagePtr
  mapnik_image_to_png_blob : ImagePtr → List UInt8
  mapnik_register_datasources : String → String → Option String
  mapnik_register_fonts : String → String → Option String
  mapnik_projection_forward : ProjPtr → Coord → Coord
  mapnik_map_projection : MapPtr → ProjPtr

/-- RegisterDatasources of mapnik.go: allocates an error-output slot initialised
with a copy of the path, passes both to the foreign registry, and returns
nothing; the slot written by the engine is bound but never read. -/
def RegisterDatasources (e : Engine) (path : String) : Unit × List FFICall :=
  let errSlot := path
  let _written := e.mapnik_register_datasources path errSlot
  ((), [FFICall.register_datasources path errSlot])

/-- RegisterFonts of mapnik.go: same shape as RegisterDatasources. -/
def RegisterFonts (e : Engine) (path : String) : Unit × List FFICall :=
  let errSlot := path
  let _written := e.mapnik_register_fonts path errSlot
  ((), [FFICall.register_fonts path errSlot])

/-- Modelled from the spec: the fixed default datasource-plugin search path.
The constant pluginPath is referenced by init in mapnik.go but its defining
file (a generated configuration file) is not under src; the spec only says it
is a fixed per-build value, so the concrete text is a stand-in. -/
def pluginPath : String := "default-datasource-plugin-search-path"

/-- Modelled from the spec: the fixed default font search path.  The constant
fontPath is referenced by init in mapnik.go but its defining file is not under
src; the spec only says it is a fixed per-build value. -/
def fontPath : String := "default-font-search-path"

/-- NewMap of mapnik.go: asks the engine for a fresh context of the given pixel
dimensions and wraps whatever handle comes back; there is no error branch. -/
def NewMap (e : Engine) (width height : Nat) : Map × List FFICall :=
  ({ m := e.mapnik_map width height }, [FFICall.map_create width height])

/-- lastError of mapnik.go: reads the per-context last-error string from the
engine and prepends the fixed subsystem prefix. -/
def Map.lastError (e : Engine) (m : Map) : String × List FFICall :=
  ("mapnik: " ++ e.mapnik_map_last_error m.m, [FFICall.map_last_error m.m])

/-- Load of mapnik.go: result none models a nil Go error, some msg models a
non-nil error carrying message msg. -/
def Map.Load (e : Engine) (m : Map) (stylesheetFile : String) :
    Option String × List FFICall :=
  if e.mapnik_map_load m.m stylesheetFile ≠ 0 then
    (some (Map.lastError e m).1,
      FFICall.map_load m.m stylesheetFile :: (Map.lastError e m).2)
  else
    (none, [FFICall.map_load m.m stylesheetFile])

/-- LoadString of mapnik.go. -/
def Map.LoadString (e : Engine) (m : Map) (stylesheet : String) :
    Option String × List FFICall :=
  if e.mapnik_map_load_string m.m stylesheet ≠ 0 then
    (some (Map.lastError e m).1,
      FFICall.map_load_string m.m stylesheet :: (Map.lastError e m).2)
  else
    (none, [FFICall.map_load_string m.m stylesheet])

/-- ZoomAll of mapnik.go. -/
def Map.ZoomAll (e : Engine) (m : Map) : Option String × List FFICall :=
  if e.mapnik_map_zoom_all m.m ≠ 0 then
    (some (Map.lastError e m).1, FFICall.map_zoom_all m.m :: (Map.lastError e m).2)
  else
    (none, [FFICall.map_zoom_all m.m])

/-- Free of mapnik.go on Map: releases the foreign handle and nulls the local
reference; Map has no other field. -/
def Map.Free (_e : Engine) (m : Map) : Map × List FFICall :=
  ({ m := none }, [FFICall.map_free m.m])

/-- Free of mapnik.go on Projection. -/
def Projection.Free (_e : Engine) (p : Projection) : Projection × List FFICall :=
  ({ p := none }, [FFICall.projection_free p.p])

/-- Forward of mapnik.go: marshals the coordinate into a C pair, applies the
foreign forward transform and rebuilds a Coord from the result. -/
def Projection.Forward (e : Engine) (p : Projection) (coord : Coord) :
    Coord × List FFICall :=
  let c := e.mapnik_projection_forward p.p { X := coord.X, Y := coord.Y }
  ({ X := c.X, Y := c.Y }, [FFICall.projection_forward p.p coord])

/-- RenderToFile of mapnik.go: substitutes scale factor 1.0 for 0.0 and format
png8 for the empty string, then makes one render call; non-zero status yields
the wrapped last-error. -/
def Map.RenderToFile (e : Engine) (m : Map) (path : String) (opts : RenderOpts) :
    Option String × List FFICall :=
  let scaleFactor := if opts.ScaleFactor = 0 then 1 else opts.ScaleFactor
  let format := if opts.Format ≠ "" then opts.Format else "png8"
  let call := FFICall.map_render_to_file m.m path opts.Scale scaleFactor format
  if e.mapnik_map_render_to_file m.m path opts.Scale scaleFactor format ≠ 0 then
    (some (Map.lastError e m).1, call :: (Map.lastError e m).2)
  else
    (none, [call])

/-- RenderToMemoryPng of mapnik.go: result is the pair of Go return values,
a possibly-nil byte slice and a possibly-nil error.  The format option is never
consulted; the image is always encoded through the PNG blob entry point. -/
def Map.RenderToMemoryPng (e : Engine) (m : Map) (opts : RenderOpts) :
    (Option (List UInt8) × Option String) × List FFICall :=
  let scaleFactor := if opts.ScaleFactor = 0 then 1 else opts.ScaleFactor
  let call := FFICall.map_render_to_image m.m opts.Scale scaleFactor
  match e.mapnik_map_render_to_image m.m opts.Scale scaleFactor with
  | none => ((none, some (Map.lastError e m).1), call :: (Map.lastError e m).2)
  | some i =>
      ((some (e.mapnik_image_to_png_blob i), none), [call, FFICall.image_to_png_blob i])

/-- Projection of mapnik.go on Map: retrieves the current transform handle. -/
def Map.Projection (e : Engine) (m : Map) : Mapnik.Projection × List FFICall :=
  ({ p := e.mapnik_map_projection m.m }, [FFICall.map_projection m.m])

/-- The trace of foreign calls made by init in mapnik.go: register the default
plugin path, then the default font path. -/
def initCalls (e : Engine) : List FFICall :=
  (RegisterDatasources e pluginPath).2 ++ (RegisterFonts e fontPath).2

/-- A client-invocable handle-creating operation of the adapter.  Neither
operation takes any search-path argument: the default paths are not
configurable per call. -/
inductive AdapterOp where
  | newMap (width height : Nat)
  | mapProjection (h : MapPtr)
  deriving DecidableEq, Repr

/-- Foreign calls made by one client operation. -/
def opCalls (e : Engine) : AdapterOp → List FFICall
  | AdapterOp.newMap w h => (NewMap e w h).2
  | AdapterOp.mapProjection h => (Map.Projection e { m := h }).2

/-- The full foreign-call trace of a process: Go runs init once, before any of
the client operations. -/
def processTrace (e : Engine) (ops : List AdapterOp) : List FFICall :=
  initCalls e ++ (ops.map (opCalls e)).flatten

/-- A concrete engine used to evaluate the definitions on closed inputs. -/
def testEngine : Engine where
  mapnik_map := fun w h => some (w + h + 1)
  mapnik_map_load := fun _ f => if f = "bad.xml" then 1 else 0
  mapnik_map_load_string := fun _ s => if s = "bad" then 1 else 0
  mapnik_map_zoom_all := fun h => if h = none then 1 else 0
  mapnik_map_last_error := fun _ => "boom"
  mapnik_map_render_to_file := fun _ path _ _ _ => if path = "/bad" then 1 else 0
  mapnik_map_render_to_image := fun h _ _ => if h = none then none else some 7
  mapnik_image_to_png_blob := fun _ => [0x89, 0x50, 0x4E, 0x47]
  mapnik_register_datasources := fun _ s => some s
  mapnik_register_fonts := fun _ s => some s
  mapnik_projection_forward := fun _ c => { X := c.Y, Y := c.X }
  mapnik_map_projection := fun _ => some 3

/-- A concrete live map wrapper for closed evaluations. -/
def testMap : Map := { m := some 5 }

/-- A second concrete engine that differs from testEngine in its reporting
entry points: registration writes nothing into the error slot and the
last-error text is different.  Used to witness independence statements. -/
def failFreeEngine : Engine :=
  { testEngine with
    mapnik_register_datasources := fun _ _ => none
    mapnik_register_fonts := fun _ _ => none
    mapnik_map_last_error := fun _ => "other" }

theorem mapnik_prefix_nonempty (s : String) : ("mapnik: " ++ s) ≠ "" := by
  intro h
  have hl : ("mapnik: " ++ s).length = (0 : Nat) := by rw [h]; rfl
  rw [String.length_append] at hl
  have h8 : ("mapnik: ").length = 8 := rfl
  omega

/-- Claim C1: for each fallible Map operation (Load, LoadString, ZoomAll,
RenderToFile) the returned error is nil exactly when the foreign status code is
zero, and any non-nil error carries the per-context last-error string behind
the fixed prefix, hence a non-empty message. -/
theorem C1_fallible_ops_error_protocol (e : Engine) (m : Map)
    (file doc path : String) (opts : RenderOpts) :
    ((Map.Load e m file).1 = none ↔ e.mapnik_map_load m.m file = 0) ∧
    (∀ msg, (Map.Load e m file).1 = some msg →
      msg = "mapnik: " ++ e.mapnik_map_last_error m.m ∧ msg ≠ "") ∧
    ((Map.LoadString e m doc).1 = none ↔ e.mapnik_map_load_string m.m doc = 0) ∧
    (∀ msg, (Map.LoadString e m doc).1 = some msg →
      msg = "mapnik: " ++ e.mapnik_map_last_error m.m ∧ msg ≠ "") ∧
    ((Map.ZoomAll e m).1 = none ↔ e.mapnik_map_zoom_all m.m = 0) ∧
    (∀ msg, (Map.ZoomAll e m).1 = some msg →
      msg = "mapnik: " ++ e.mapnik_map_last_error m.m ∧ msg ≠ "") ∧
    ((Map.RenderToFile e m path opts).1 = none ↔
      e.mapnik_map_render_to_file m.m path opts.Scale
        (if opts.ScaleFactor = 0 then 1 else opts.ScaleFactor)
        (if opts.Format ≠ "" then opts.Format else "png8") = 0) ∧
    (∀ msg, (Map.RenderToFile e m path opts).1 = some msg →
      msg = "mapnik: " ++ e.mapnik_map_last_error m.m ∧ msg ≠ "") := by
  refine ⟨?_, ?_, ?_, ?_, ?_, ?_, ?_, ?_⟩
  · by_cases h : e.mapnik_map_load m.m file = 0 <;>
      simp [Map.Load, Map.lastError, h]
  · intro msg hmsg
    by_cases h : e.mapnik_map_load m.m file = 0 <;>
      simp [Map.Load, Map.lastError, h] at hmsg
    subst hmsg
    exact ⟨rfl, mapnik_prefix_nonempty _⟩
  · by_cases h : e.mapnik_map_load_string m.m doc = 0 <;>
      simp [Map.LoadString, Map.lastError, h]
  · intro msg hmsg
    by_cases h : e.mapnik_map_load_string m.m doc = 0 <;>
      simp [Map.LoadString, Map.lastError, h] at hmsg
    subst hmsg
    exact ⟨rfl, mapnik_prefix_nonempty _⟩
  · by_cases h : e.mapnik_map_zoom_all m.m = 0 <;>
      simp [Map.ZoomAll, Map.lastError, h]
  · intro msg hmsg
    by_cases h : e.mapnik_map_zoom_all m.m = 0 <;>
      simp [Map.ZoomAll, Map.lastError, h] at hmsg
    subst hmsg
    exact ⟨rfl, mapnik_prefix_nonempty _⟩
  · by_cases h : e.mapnik_map_render_to_file m.m path opts.Scale
        (if opts.ScaleFactor = 0 then 1 else opts.ScaleFactor)
        (if opts.Format = "" then "png8" else opts.Format) = 0 <;>
      simp [Map.RenderToFile, Map.lastError, ite_not, h]
  · intro msg hmsg
    by_cases h : e.mapnik_map_render_to_file m.m path opts.Scale
        (if opts.ScaleFactor = 0 then 1 else opts.ScaleFactor)
        (if opts.Format = "" then "png8" else opts.Format) = 0 <;>
      simp [Map.RenderToFile, Map.lastError, ite_not, h] at hmsg
    subst hmsg
    exact ⟨rfl, mapnik_prefix_nonempty _⟩

/-- Claim C1 witness: concrete failing and succeeding calls against the test
engine, evaluated on closed inputs. -/
theorem C1_fallible_ops_error_protocol_witness :
    (Map.Load testEngine testMap "bad.xml").1 = some "mapnik: boom" ∧
    (Map.Load testEngine testMap "ok.xml").1 = none ∧
    "mapnik: boom" ≠ "" := by
  have h := C1_fallible_ops_error_protocol testEngine testMap "bad.xml" "" ""
    { Scale := 0, ScaleFactor := 0, Format := "" }
  refine ⟨?_, ?_, by decide⟩
  · have hv : (Map.Load testEngine testMap "bad.xml").1 =
        some ("mapnik: " ++ "boom") := by rfl
    exact hv
  · exact (C1_fallible_ops_error_protocol testEngine testMap "ok.xml" "" ""
      { Scale := 0, ScaleFactor := 0, Format := "" }).1.mpr (by decide)

/-- Claim C2: the memory-rendering path never consults the format option — the
result is invariant under any change of opts.Format, including values such as
jpeg80 — and on success the bytes are produced by the PNG blob encoder. -/
theorem C2_memory_render_always_png (e : Engine) (m : Map) (opts : RenderOpts)
    (fmt : String) :
    Map.RenderToMemoryPng e m { opts with Format := fmt } =
      Map.RenderToMemoryPng e m opts ∧
    (∀ i, e.mapnik_map_render_to_image m.m opts.Scale
        (if opts.ScaleFactor = 0 then 1 else opts.ScaleFactor) = some i →
      (Map.RenderToMemoryPng e m opts).1 =
        (some (e.mapnik_image_to_png_blob i), none)) := by
  constructor
  · simp [Map.RenderToMemoryPng]
  · intro i hi
    simp [Map.RenderToMemoryPng, hi]

/-- Claim C2 witness: against the test engine, rendering with format jpeg80
gives the same result as with the empty format, and the success bytes are the
PNG blob the encoder returns. -/
theorem C2_memory_render_always_png_witness :
    Map.RenderToMemoryPng testEngine testMap
        { Scale := 0, ScaleFactor := 0, Format := "jpeg80" } =
      Map.RenderToMemoryPng testEngine testMap
        { Scale := 0, ScaleFactor := 0, Format := "" } ∧
    (Map.RenderToMemoryPng testEngine testMap
        { Scale := 0, ScaleFactor := 0, Format := "" }).1 =
      (some [0x89, 0x50, 0x4E, 0x47], none) := by
  have h := C2_memory_render_always_png testEngine testMap
    { Scale := 0, ScaleFactor := 0, Format := "" } "jpeg80"
  exact ⟨h.1, h.2 7 (by decide)⟩

theorem RenderToFile_trace_head (e : Engine) (m : Map) (path : String)
    (opts : RenderOpts) :
    (Map.RenderToFile e m path opts).2.head? =
      some (FFICall.map_render_to_file m.m path opts.Scale
        (if opts.ScaleFactor = 0 then 1 else opts.ScaleFactor)
        (if opts.Format = "" then "png8" else opts.Format)) := by
  by_cases h : e.mapnik_map_render_to_file m.m path opts.Scale
      (if opts.ScaleFactor = 0 then 1 else opts.ScaleFactor)
      (if opts.Format = "" then "png8" else opts.Format) = 0 <;>
    simp [Map.RenderToFile, ite_not, h]

theorem RenderToMemoryPng_trace_head (e : Engine) (m : Map) (opts : RenderOpts) :
    (Map.RenderToMemoryPng e m opts).2.head? =
      some (FFICall.map_render_to_image m.m opts.Scale
        (if opts.ScaleFactor = 0 then 1 else opts.ScaleFactor)) := by
  rcases hi : e.mapnik_map_render_to_image m.m opts.Scale
      (if opts.ScaleFactor = 0 then 1 else opts.ScaleFactor) with _ | i <;>
    simp [Map.RenderToMemoryPng, hi]

/-- Claim C3: RenderToFile substitutes scale factor 1.0 for an unset (zero)
scale factor and format png8 for an empty format string before the single
foreign render call, so an empty-format call equals the same call with png8. -/
theorem C3_render_to_file_defaults (e : Engine) (m : Map) (path : String)
    (opts : RenderOpts) :
    (opts.ScaleFactor = 0 →
      (Map.RenderToFile e m path opts).2.head? =
        some (FFICall.map_render_to_file m.m path opts.Scale 1
          (if opts.Format = "" then "png8" else opts.Format))) ∧
    (opts.ScaleFactor ≠ 0 →
      (Map.RenderToFile e m path opts).2.head? =
        some (FFICall.map_render_to_file m.m path opts.Scale opts.ScaleFactor
          (if opts.Format = "" then "png8" else opts.Format))) ∧
    (opts.Format = "" →
      (Map.RenderToFile e m path opts).2.head? =
        some (FFICall.map_render_to_file m.m path opts.Scale
          (if opts.ScaleFactor = 0 then 1 else opts.ScaleFactor) "png8")) ∧
    (opts.Format ≠ "" →
      (Map.RenderToFile e m path opts).2.head? =
        some (FFICall.map_render_to_file m.m path opts.Scale
          (if opts.ScaleFactor = 0 then 1 else opts.ScaleFactor) opts.Format)) ∧
    Map.RenderToFile e m path { opts with Format := "" } =
      Map.RenderToFile e m path { opts with Format := "png8" } := by
  refine ⟨?_, ?_, ?_, ?_, ?_⟩
  · intro h
    simp [RenderToFile_trace_head, h]
  · intro h
    simp [RenderToFile_trace_head, h]
  · intro h
    simp [RenderToFile_trace_head, h]
  · intro h
    simp [RenderToFile_trace_head, h]
  · simp [Map.RenderToFile]

/-- Claim C3 witness: the default substitutions evaluated on closed inputs. -/
theorem C3_render_to_file_defaults_witness :
    (Map.RenderToFile testEngine testMap "/tmp/out"
        { Scale := 2, ScaleFactor := 0, Format := "" }).2.head? =
      some (FFICall.map_render_to_file (some 5) "/tmp/out" 2 1 "png8") ∧
    Map.RenderToFile testEngine testMap "/tmp/out"
        { Scale := 2, ScaleFactor := 0, Format := "" } =
      Map.RenderToFile testEngine testMap "/tmp/out"
        { Scale := 2, ScaleFactor := 0, Format := "png8" } := by
  have h := C3_render_to_file_defaults testEngine testMap "/tmp/out"
    { Scale := 2, ScaleFactor := 0, Format := "" }
  exact ⟨h.1 rfl, h.2.2.2.2⟩

/-- Claim C4: the memory-rendering path returns exactly one of a byte slice
and an error — a null image handle gives nil bytes and a non-nil wrapped
last-error, a non-null handle gives the encoded bytes and a nil error, and
nil bytes together with a nil error never occur. -/
theorem C4_memory_render_result_xor_error (e : Engine) (m : Map)
    (opts : RenderOpts) :
    (e.mapnik_map_render_to_image m.m opts.Scale
        (if opts.ScaleFactor = 0 then 1 else opts.ScaleFactor) = none →
      (Map.RenderToMemoryPng e m opts).1 =
        (none, some ("mapnik: " ++ e.mapnik_map_last_error m.m))) ∧
    (∀ i, e.mapnik_map_render_to_image m.m opts.Scale
        (if opts.ScaleFactor = 0 then 1 else opts.ScaleFactor) = some i →
      (Map.RenderToMemoryPng e m opts).1 =
        (some (e.mapnik_image_to_png_blob i), none)) ∧
    ¬((Map.RenderToMemoryPng e m opts).1.1 = none ∧
      (Map.RenderToMemoryPng e m opts).1.2 = none) := by
  refine ⟨?_, ?_, ?_⟩
  · intro h
    simp [Map.RenderToMemoryPng, Map.lastError, h]
  · intro i hi
    simp [Map.RenderToMemoryPng, hi]
  · rcases hi : e.mapnik_map_render_to_image m.m opts.Scale
      (if opts.ScaleFactor = 0 then 1 else opts.ScaleFactor) with _ | i <;>
      simp [Map.RenderToMemoryPng, Map.lastError, hi]

/-- Claim C4 witness: on a live handle the test engine renders to bytes with a
nil error, and on a null handle it reports the wrapped last-error with nil
bytes; in both closed cases bytes and error are never both nil. -/
theorem C4_memory_render_result_xor_error_witness :
    (Map.RenderToMemoryPng testEngine testMap
        { Scale := 0, ScaleFactor := 0, Format := "" }).1 =
      (some [0x89, 0x50, 0x4E, 0x47], none) ∧
    (Map.RenderToMemoryPng testEngine { m := none }
        { Scale := 0, ScaleFactor := 0, Format := "" }).1 =
      (none, some "mapnik: boom") := by
  have h1 := C4_memory_render_result_xor_error testEngine testMap
    { Scale := 0, ScaleFactor := 0, Format := "" }
  have h2 := C4_memory_render_result_xor_error testEngine { m := none }
    { Scale := 0, ScaleFactor := 0, Format := "" }
  exact ⟨h1.2.1 7 (by decide), h2.1 (by decide)⟩

/-- Claim C10: the memory-rendering path applies the same scale-factor default
as the file path — exactly 0.0 becomes 1.0 in the foreign render call, and any
other value, negative values included, is passed through unchanged. -/
theorem C10_memory_render_scale_default (e : Engine) (m : Map)
    (opts : RenderOpts) :
    (opts.ScaleFactor = 0 →
      (Map.RenderToMemoryPng e m opts).2.head? =
        some (FFICall.map_render_to_image m.m opts.Scale 1)) ∧
    (opts.ScaleFactor ≠ 0 →
      (Map.RenderToMemoryPng e m opts).2.head? =
        some (FFICall.map_render_to_image m.m opts.Scale opts.ScaleFactor)) := by
  constructor
  · intro h
    simp [RenderToMemoryPng_trace_head, h]
  · intro h
    simp [RenderToMemoryPng_trace_head, h]

/-- Claim C10 witness: a zero scale factor reaches the engine as 1, and a
negative scale factor reaches the engine unchanged. -/
theorem C10_memory_render_scale_default_witness :
    (Map.RenderToMemoryPng testEngine testMap
        { Scale := 3, ScaleFactor := 0, Format := "" }).2.head? =
      some (FFICall.map_render_to_image (some 5) 3 1) ∧
    (Map.RenderToMemoryPng testEngine testMap
        { Scale := 3, ScaleFactor := -2, Format := "" }).2.head? =
      some (FFICall.map_render_to_image (some 5) 3 (-2)) := by
  have h1 := C10_memory_render_scale_default testEngine testMap
    { Scale := 3, ScaleFactor := 0, Format := "" }
  have h2 := C10_memory_render_scale_default testEngine testMap
    { Scale := 3, ScaleFactor := -2, Format := "" }
  exact ⟨h1.1 rfl, h2.2 (by decide)⟩

/-- Claim C5: the registration wrappers pass the path and the allocated
error-output slot to the foreign registry, return no value, and their outcome
is independent of anything the engine reports — two engines with arbitrarily
different behaviour give identical results, so a registration failure is
invisible to the caller. -/
theorem C5_registration_discards_errors (e e2 : Engine) (path : String) :
    RegisterDatasources e path = RegisterDatasources e2 path ∧
    RegisterFonts e path = RegisterFonts e2 path ∧
    RegisterDatasources e path = ((), [FFICall.register_datasources path path]) ∧
    RegisterFonts e path = ((), [FFICall.register_fonts path path]) :=
  ⟨rfl, rfl, rfl, rfl⟩

/-- Claim C5 witness: the result of registration is the same whether the
engine reports a failure string or reports nothing. -/
theorem C5_registration_discards_errors_witness :
    RegisterDatasources testEngine "/plugins" =
      RegisterDatasources failFreeEngine "/plugins" ∧
    RegisterFonts testEngine "/fonts" = RegisterFonts failFreeEngine "/fonts" :=
  ⟨(C5_registration_discards_errors testEngine failFreeEngine "/plugins").1,
   (C5_registration_discards_errors testEngine failFreeEngine "/fonts").2.1⟩

/-- Claim C6: Free on Map releases the foreign handle and nulls the wrapper
handle field, and Free on Projection does the same; each wrapper has a single
field, so the resulting wrapper is fully determined. -/
theorem C6_free_nulls_local_handle (e : Engine) (m : Map) (p : Projection) :
    (Map.Free e m).1 = { m := none } ∧
    (Map.Free e m).2 = [FFICall.map_free m.m] ∧
    (Projection.Free e p).1 = { p := none } ∧
    (Projection.Free e p).2 = [FFICall.projection_free p.p] :=
  ⟨rfl, rfl, rfl, rfl⟩

/-- Claim C6 witness: freeing the concrete live map and a concrete projection
nulls their handle fields. -/
theorem C6_free_nulls_local_handle_witness :
    (Map.Free testEngine testMap).1 = { m := none } ∧
    (Projection.Free testEngine { p := some 3 }).1 = { p := none } :=
  ⟨(C6_free_nulls_local_handle testEngine testMap { p := some 3 }).1,
   (C6_free_nulls_local_handle testEngine testMap { p := some 3 }).2.2.1⟩

/-- Claim C7: the process trace starts with exactly one registration of the
fixed default plugin path followed by exactly one registration of the fixed
default font path, no client operation ever produces another registration
call, and every handle-creating call sits strictly after both registrations. -/
theorem C7_init_registers_defaults_once_first (e : Engine)
    (ops : List AdapterOp) :
    processTrace e ops =
      FFICall.register_datasources pluginPath pluginPath ::
        FFICall.register_fonts fontPath fontPath ::
          (ops.map (opCalls e)).flatten ∧
    (∀ c ∈ (ops.map (opCalls e)).flatten, ∀ a b,
      c ≠ FFICall.register_datasources a b ∧ c ≠ FFICall.register_fonts a b) ∧
    (∀ i w h, (processTrace e ops).get? i = some (FFICall.map_create w h) →
      2 ≤ i) := by
  refine ⟨rfl, ?_, ?_⟩
  · intro c hc a b
    rw [List.mem_flatten] at hc
    obtain ⟨l, hl, hcl⟩ := hc
    rw [List.mem_map] at hl
    obtain ⟨op, _, rfl⟩ := hl
    cases op with
    | newMap w h =>
        simp only [opCalls, NewMap, List.mem_singleton] at hcl
        subst hcl
        exact ⟨by simp, by simp⟩
    | mapProjection hdl =>
        simp only [opCalls, Map.Projection, List.mem_singleton] at hcl
        subst hcl
        exact ⟨by simp, by simp⟩
  · intro i w h hg
    rcases i with _ | _ | n
    · simp [processTrace, initCalls, RegisterDatasources, RegisterFonts] at hg
    · simp [processTrace, initCalls, RegisterDatasources, RegisterFonts] at hg
    · omega

/-- Claim C7 witness: a process that creates one 256 by 256 map performs the
two default registrations first and the handle creation last. -/
theorem C7_init_registers_defaults_once_first_witness :
    processTrace testEngine [AdapterOp.newMap 256 256] =
      [FFICall.register_datasources pluginPath pluginPath,
       FFICall.register_fonts fontPath fontPath,
       FFICall.map_create 256 256] :=
  (C7_init_registers_defaults_once_first testEngine
    [AdapterOp.newMap 256 256]).1.trans (by rfl)

/-- Claim C8: NewMap has no error branch — for every dimension pair it returns
the wrapper around whatever handle the engine hands back, its trace is the
single create call, and its result depends only on the create entry point of
the engine, so no failure of any other entry point can surface. -/
theorem C8_newmap_cannot_fail (e e2 : Engine) (width height : Nat) :
    (NewMap e width height).1 = { m := e.mapnik_map width height } ∧
    (NewMap e width height).2 = [FFICall.map_create width height] ∧
    (e.mapnik_map = e2.mapnik_map →
      NewMap e width height = NewMap e2 width height) := by
  refine ⟨rfl, rfl, ?_⟩
  intro h
  simp [NewMap, h]

/-- Claim C8 witness: creating a 256 by 256 map against the test engine yields
the wrapper around the engine handle, independent of the failing engine
entries. -/
theorem C8_newmap_cannot_fail_witness :
    (NewMap testEngine 256 256).1 = { m := some 513 } ∧
    NewMap testEngine 256 256 = NewMap failFreeEngine 256 256 := by
  have h := C8_newmap_cannot_fail testEngine failFreeEngine 256 256
  exact ⟨h.1.trans (by rfl), h.2.2 rfl⟩

/-- Claim C9: Forward is pure at this layer — its result is exactly the
engine forward transform of the input coordinate, it returns no modified
wrapper and no error, it depends only on the wrapped handle, and only on the
forward entry point of the engine. -/
theorem C9_projection_forward_pure (e e2 : Engine) (p p2 : Projection)
    (coord : Coord) :
    (Projection.Forward e p coord).1 =
      e.mapnik_projection_forward p.p coord ∧
    (Projection.Forward e p coord).2 =
      [FFICall.projection_forward p.p coord] ∧
    (p.p = p2.p → Projection.Forward e p coord = Projection.Forward e p2 coord) ∧
    (e.mapnik_projection_forward = e2.mapnik_projection_forward →
      Projection.Forward e p coord = Projection.Forward e2 p coord) := by
  refine ⟨rfl, rfl, ?_, ?_⟩
  · intro h
    simp [Projection.Forward, h]
  · intro h
    simp [Projection.Forward, h]

/-- Claim C9 witness: the concrete swap transform of the test engine is
returned unchanged as the new coordinate, with the single forward call in the
trace. -/
theorem C9_projection_forward_pure_witness :
    (Projection.Forward testEngine { p := some 3 } { X := 1, Y := 2 }).1 =
      { X := 2, Y := 1 } ∧
    (Projection.Forward testEngine { p := some 3 } { X := 1, Y := 2 }).2 =
      [FFICall.projection_forward (some 3) { X := 1, Y := 2 }] := by
  have h := C9_projection_forward_pure testEngine testEngine
    { p := some 3 } { p := some 3 } { X := 1, Y := 2 }
  exact ⟨h.1.trans (by rfl), h.2.1⟩

end Mapnik
